import Mathlib

/-!
# Verification of the componentize-js call-bridging runtime

A shallow embedding of the call-bridging runtime in `src/runtime/src/lib.rs`
(the layer that marshals values between the component-model ABI and the
embedded SpiderMonkey engine), together with theorems settling the spec's
claims about it.

Modelling conventions:

* Engine values (`mozjs` `Value`, a NaN-boxed jsval) are modelled by the
  inductive `JSValue`.  The engine primitives `UInt32Value` and `to_int32`
  are modelled after the engine's public value API: `UInt32Value` produces
  an int32-tagged value when the argument fits in a signed 32-bit integer
  and a double-tagged value otherwise; `to_int32` asserts the value is
  int32-tagged (an abort on any other tag), modelled by returning `none`.
* Rust `Vec` stacks are modelled as Lean lists with the top of the stack at
  the head (Rust pushes/pops at the `Vec`'s end; only the LIFO behaviour,
  never the physical layout, is relied upon).
* Aborts (failed `assert!`/`unwrap`/`unreachable!`/`todo!`) are modelled by
  `Option`: `none` is an abort.
* Heap identity (the address of an `Arc`, a `Heap<Value>` slot or the
  global object) is modelled by a `Nat` identifier.
-/

namespace ComponentizeJs

/-- An engine-native value (`mozjs::jsapi::Value`), distinguished by its
NaN-boxing tag.  `object` and `string` carry a heap identifier; `int32`
carries the signed payload; `double` carries the (here always integral)
numeric value. -/
inductive JSValue where
  | undefined : JSValue
  | boolean : Bool → JSValue
  | int32 : Int → JSValue
  | double : Nat → JSValue
  | object : Nat → JSValue
  | string : Nat → JSValue
deriving DecidableEq, Repr

namespace JSValue

/-- `Value::is_markable`: true exactly for GC-thing tags (objects, strings). -/
def is_markable : JSValue → Bool
  | object _ => true
  | string _ => true
  | _ => false

/-- `Value::to_int32` from the engine's value API: extracts the int32
payload, asserting the value is int32-tagged; on any other tag the
accessor aborts, modelled by `none`. -/
def to_int32 : JSValue → Option Int
  | int32 i => some i
  | _ => none

end JSValue

/-- `mozjs::jsval::UInt32Value`: an unsigned 32-bit number is stored as an
int32-tagged value when it fits in `i32`, otherwise as a double. -/
def UInt32Value (v : Nat) : JSValue :=
  if v ≤ 0x7fffffff then .int32 (v : Int) else .double v

/-- Rust `as u32` on an `i32`: two's-complement reinterpretation,
i.e. reduction modulo 2^32. -/
def i32AsU32 (i : Int) : Nat := (i % 4294967296).toNat

/-- The per-invocation marshalling state `MyCall` (src/runtime/src/lib.rs).
The value stack holds engine values; the head of the list is the top of the
stack.  `borrows` and `resources` only record counts, since `Borrow` and
`EmptyResource` are empty types in the source. -/
structure MyCall where
  iter_stack : List Nat
  deferred_deallocations : List (Nat × Nat)
  strings : List String
  borrows : Nat
  stack : List JSValue
  resources : Option Nat
deriving DecidableEq, Repr

namespace MyCall

/-- `MyCall::new` (minus the GC-root-registry insertion, which is modelled
separately as `registry_insert` on the process-wide stack registry). -/
def new : MyCall :=
  { iter_stack := []
    deferred_deallocations := []
    strings := []
    borrows := 0
    stack := []
    resources := none }

/-- `MyCall::push_u32`: `self.stack.push(Heap::boxed(UInt32Value(val)))`. -/
def push_u32 (c : MyCall) (val : Nat) : MyCall :=
  { c with stack := UInt32Value val :: c.stack }

/-- `MyCall::pop_u32`:
`self.stack.pop().unwrap().get().to_int32() as u32`.
Aborts (`none`) when the stack is empty (`unwrap`) or the popped value is
not int32-tagged (`to_int32`'s assertion). -/
def pop_u32 (c : MyCall) : Option (Nat × MyCall) :=
  match c.stack with
  | [] => none
  | v :: rest => (v.to_int32).map fun i => (i32AsU32 i, { c with stack := rest })

end MyCall

/-! ## GC Root Registry -/

/-- The process-wide `STACKS` registry: the set of currently live call
stacks, keyed by stack identity (the `Arc`'s address, modelled as a `Nat`
identifier). -/
abbrev StackRegistry := List Nat

/-- The registration performed by `MyCall::new`:
`assert!(STACKS.try_lock().unwrap().insert(ArcHash(stack.clone())))`.
`HashSet::insert` returns `false` when the element is already present, so
a double registration fails the assertion (`none`). -/
def registry_insert (r : StackRegistry) (id : Nat) : Option StackRegistry :=
  if id ∈ r then none else some (id :: r)

/-- The deregistration performed by `Drop for MyCall`:
`assert!(STACKS.try_lock().unwrap().remove(&ArcHash(self.stack.clone())))`.
`HashSet::remove` returns `false` when the element is absent, so a missing
registration (or a second removal) fails the assertion (`none`). -/
def registry_remove (r : StackRegistry) (id : Nat) : Option StackRegistry :=
  if id ∈ r then some (r.erase id) else none

/-! ## GC root tracing -/

/-- A `Heap<Value>` slot on a registered call stack: its heap address and
the value it currently holds. -/
abbrev Slot := Nat × JSValue

/-- `trace_roots` (src/runtime/src/lib.rs): traces the global object
(`CallObjectTracer`) and then, for every stack registered in `STACKS`,
every markable value held on it (`CallValueTracer`); non-markable values
are skipped.  The result is the list of heap addresses handed to the
engine's tracer, in visit order; `g` is the global object's address
and `reg` the registered stacks' contents. -/
def trace_roots (g : Nat) (reg : List (List Slot)) : List Nat :=
  g :: reg.flatMap fun stack =>
    (stack.filter fun s => s.2.is_markable).map Prod.fst

/-! ## Async Task Scheduler -/

/-- Component-model async ABI constants used by the runtime (provided by
the `wit-dylib-ffi` crate, per the canonical ABI's callback/event
encodings).  Only their distinctness matters to the control flow below. -/
def CALLBACK_CODE_EXIT : Nat := 0

/-- Canonical-ABI callback code: suspend and wait on a waitable set. -/
def CALLBACK_CODE_WAIT : Nat := 2

/-- Canonical-ABI event kind: no event. -/
def EVENT_NONE : Nat := 0

/-- Canonical-ABI event kind: a subtask changed state. -/
def EVENT_SUBTASK : Nat := 1

/-- Canonical-ABI subtask phase: starting. -/
def STATUS_STARTING : Nat := 1

/-- Canonical-ABI subtask phase: started. -/
def STATUS_STARTED : Nat := 2

/-- Canonical-ABI subtask phase: returned. -/
def STATUS_RETURNED : Nat := 3

/-- An import-function descriptor from the Import Dispatch Table (the
`wit_dylib_ffi` view of the WIT world used by `call_import` and
`export_async_callback`): owning interface, name, parameter count, async
flag, and whether the function has a result. -/
structure ImportFunc where
  interface : Option String
  name : String
  param_count : Nat
  is_async : Bool
  has_result : Bool
deriving DecidableEq, Repr

/-- The `Promise::ImportCall` pending entry registered for an import call
that did not complete synchronously: the import's dispatch index, the
captured Call Context, the result-buffer descriptor, and the heap ids of
the captured resolve/reject callback function values. -/
structure PendingEntry where
  index : Nat
  call : MyCall
  buffer : Nat
  resolve : Nat
  reject : Nat
deriving DecidableEq, Repr

/-- Modelled from the spec: a host-managed waitable set — its handle plus
the subtask handles joined to it ("a host-managed group of outstanding
events a suspended task is waiting on").  The code that creates the set
and joins subtasks to it is absent from the snapshot, so membership is
carried as ghost state maintained per the spec. -/
structure WaitableSet where
  handle : Nat
  members : List Nat
deriving DecidableEq, Repr

/-- The per-async-export `TaskState` (its declaration is absent from the
snapshot; fields per the spec's Async Task Scheduler data model): an
optional waitable set and the mapping from host-assigned subtask handle to
pending entry. -/
structure TaskState where
  waitable_set : Option WaitableSet
  pending : List (Nat × PendingEntry)
deriving DecidableEq, Repr

/-- Modelled from the spec: `TaskState::new` — the waitable set is "absent
until first suspension" and no subtasks are pending. -/
def TaskState.new : TaskState := { waitable_set := none, pending := [] }

/-- Insertion into the pending-entry map (`state.pending.insert(k, v)`):
binds `k` to `v`, replacing any previous binding for `k`. -/
def pendingInsert (m : List (Nat × PendingEntry)) (k : Nat) (v : PendingEntry) :
    List (Nat × PendingEntry) :=
  (k, v) :: m.filter fun p => p.1 != k

/-- Removal from the pending-entry map (`state.pending.remove(k)`). -/
def pendingRemove (m : List (Nat × PendingEntry)) (k : Nat) :
    List (Nat × PendingEntry) :=
  m.filter fun p => p.1 != k

/-- The outcome `poll` reports to the host. -/
inductive PollResult where
  | exit (released : Option Nat)
  | wait (code : Nat) (stashed : TaskState)
deriving DecidableEq, Repr

/-- `poll` (src/runtime/src/lib.rs): invoked after `RunJobs` has drained
the engine's job queue, so `st` is the post-drain Task State (the hand-off
through the `CURRENT_TASK_STATE` static, whose declaration is absent from
the snapshot, is modelled per the spec by passing the in-flight Task State
directly).  If no subtasks are pending, the waitable set, if any, is
dropped (`waitable_set_drop`) and `CALLBACK_CODE_EXIT` is reported;
otherwise the state is stashed behind an opaque pointer (`context_set`)
and `CALLBACK_CODE_WAIT | (set << 4)` is reported.  The `unwrap` of a
missing waitable set aborts (`none`). -/
def poll (st : TaskState) : Option PollResult :=
  if st.pending.isEmpty then
    some (.exit (st.waitable_set.map WaitableSet.handle))
  else
    match st.waitable_set with
    | none => none
    | some ws => some (.wait (CALLBACK_CODE_WAIT ||| (ws.handle <<< 4)) st)

/-- The host's response to `func.call_import_async(call)`: `none` when
the import completed synchronously (its result already lifted onto the
call's stack), otherwise the host-assigned subtask handle and the
result-buffer descriptor. -/
structure PendingImport where
  subtask : Nat
  buffer : Nat
deriving DecidableEq, Repr

/-- A host/engine-visible action performed by the dispatch entry point or
the async callback. -/
inductive JsAction where
  | invoke_resolve (fn : Nat) (arg : JSValue)
  | waitable_join_detach (subtask : Nat)
  | subtask_drop (subtask : Nat)
deriving DecidableEq, Repr

/-- The async branch of `call_import` (src/runtime/src/lib.rs, lines
219-259): `index` is the import's dispatch index, `call` the Call Context
as left by `call_import_async` (arguments lowered; on synchronous
completion the result already pushed), `resp` the host's response, and
`resolve`/`reject` the third and fourth script arguments.  On synchronous
completion the result — popped from the call's stack when the import has
one, `undefined` otherwise — is passed to the resolve callback before the
entry point returns and the current Task State is left untouched;
otherwise a pending entry is inserted into the current Task State keyed by
the subtask handle.  Aborts (`none`) when the result pop finds an empty
stack, or when no Task State is current for the pending case. -/
def call_import_async_branch (index : Nat) (func : ImportFunc) (call : MyCall)
    (resp : Option PendingImport) (resolve reject : Nat)
    (cur : Option TaskState) : Option (List JsAction × Option TaskState) :=
  match resp with
  | some p =>
    match cur with
    | none => none
    | some st =>
      some ([], some { st with
        pending := pendingInsert st.pending p.subtask
          { index := index, call := call, buffer := p.buffer
            resolve := resolve, reject := reject } })
  | none =>
    if func.has_result then
      match call.stack with
      | [] => none
      | v :: _ => some ([.invoke_resolve resolve v], cur)
    else
      some ([.invoke_resolve resolve .undefined], cur)

/-- `MyInterpreter::export_async_callback` up to (but not including) its
final re-entry into `poll`: `wit` is the Import Dispatch Table (to look up
the returned import's descriptor), `st` the stashed Task State recovered
from the opaque pointer, `lifted` the value the external
`lift_import_async_result` lifts from the result buffer onto the captured
call's stack (`none` when it lifts nothing), and `(event0, event1,
event2)` the event triple.  Returns the host-visible actions and the Task
State handed on to `poll`.  Aborts (`none`) on a `STARTING` phase
(`unreachable!`), an unrecognized event kind or subtask phase (`todo!`), a
missing pending entry (`unwrap`), a violated post-lift stack-length
assertion, or a missing result on the captured stack. -/
def export_async_callback_step (wit : List ImportFunc) (st : TaskState)
    (lifted : Option JSValue) (event0 event1 event2 : Nat) :
    Option (List JsAction × TaskState) :=
  if event0 = EVENT_NONE then some ([], st)
  else if event0 = EVENT_SUBTASK then
    if event2 = STATUS_STARTING then none
    else if event2 = STATUS_STARTED then some ([], st)
    else if event2 = STATUS_RETURNED then
      match st.pending.lookup event1 with
      | none => none
      | some entry =>
        match wit[entry.index]? with
        | none => none
        | some func =>
          let call := { entry.call with stack := lifted.toList ++ entry.call.stack }
          if call.stack.length < 2 then
            if func.has_result then
              match call.stack with
              | [] => none
              | v :: _ =>
                some ([.waitable_join_detach event1, .subtask_drop event1,
                       .invoke_resolve entry.resolve v],
                      { st with pending := pendingRemove st.pending event1 })
            else
              some ([.waitable_join_detach event1, .subtask_drop event1,
                     .invoke_resolve entry.resolve .undefined],
                    { st with pending := pendingRemove st.pending event1 })
          else none
    else none
  else none

/-- `export_async_callback` in full: the event-handling step followed by
the re-entry into `poll` (`with_context(poll)`); the callback's return
value is whatever `poll` reports, alongside the actions performed. -/
def export_async_callback (wit : List ImportFunc) (st : TaskState)
    (lifted : Option JSValue) (event0 event1 event2 : Nat) :
    Option (List JsAction × PollResult) :=
  (export_async_callback_step wit st lifted event0 event1 event2).bind
    fun r => (poll r.2).map fun pr => (r.1, pr)

/-! ## Shim generator -/

/-- `func.name().replace('-', "_")`. -/
def replaceDash (s : String) : String :=
  ⟨s.data.map fun c => if c = '-' then '_' else c⟩

/-- `interface.replace([':', '/', '-'], "_")`. -/
def replaceIfaceChars (s : String) : String :=
  ⟨s.data.map fun c => if c = ':' ∨ c = '/' ∨ c = '-' then '_' else c⟩

/-- `(0..func.params().len()).map(|i| format!("p{i}")).join(",")`. -/
def gen_import_params (n : Nat) : String :=
  String.intercalate "," ((List.range n).map fun i => s!"p{i}")

/-- The body expression generated for one import (src lines 319-326),
exactly as the source's format strings write it: a direct
`componentize_js_call_import` call for a sync import, the `new Promise(`
text for an async import. -/
def gen_import_value (index : Nat) (func : ImportFunc) : String :=
  let params := gen_import_params func.param_count
  if func.is_async then
    s!"new Promise((a,b)=>componentize_js_call_import({index},[{params}],a,b)"
  else
    s!"componentize_js_call_import({index},[{params}])"

/-- One import's property in the generated namespace object (src line
327). -/
def gen_import_func (index : Nat) (func : ImportFunc) : String :=
  let name := replaceDash func.name
  let params := gen_import_params func.param_count
  s!"{name}:function({params})\x7breturn {gen_import_value index func}\x7d"

/-- One interface's group in the generated `imports` object (src lines
332-337): named interfaces become a `_`-rewritten namespace object,
functions with no owning interface stay at top level. -/
def gen_import_group (interface : Option String) (funcs : String) : String :=
  match interface with
  | some i => s!"{replaceIfaceChars i}:\x7b{funcs}\x7d"
  | none => funcs

/-- The final script assembly (src lines 395-397):
`format!("{script}\nvar imports = {{{imports}}}\nvar componentize_js_async_exports = {{{imports}}}")`.
As the source writes it, the text interpolated into the
`componentize_js_async_exports` object is the `imports` string; the
generated export-wrapper text (the local `exports` string of src lines
361-391) is never interpolated anywhere. -/
def assembled_script (script imports_js _exports_js : String) : String :=
  script ++ "\nvar imports = \x7b" ++ imports_js ++
    "\x7d\nvar componentize_js_async_exports = \x7b" ++ imports_js ++ "\x7d"

/-- Running parenthesis balance of a string: each `(` opens and each `)`
closes; every well-formed script expression or statement list has balance
zero. -/
def parenBalance (s : String) : Int :=
  s.toList.foldl (fun a c => a + (if c = '(' then 1 else if c = ')' then -1 else 0)) 0

end ComponentizeJs

namespace ComponentizeJs

/-! ## Helper lemmas -/

/-- The markable-filtered address trace of the registered stacks is a
sublist of the full slot-address listing of those stacks. -/
theorem trace_filter_sublist (reg : List (List Slot)) :
    (reg.flatMap fun stack =>
      (stack.filter fun s => s.2.is_markable).map Prod.fst).Sublist
      ((reg.flatMap id).map Prod.fst) := by
  induction reg with
  | nil => simp
  | cons st rest ih =>
      simp only [List.flatMap_cons, List.map_append, id]
      exact ((st.filter_sublist).map Prod.fst).append ih

/-- Filtering for a key immediately after filtering it out yields nothing. -/
theorem filter_ne_filter_eq_nil (m : List (Nat × PendingEntry)) (k : Nat) :
    ((m.filter fun q => q.1 != k).filter fun q => q.1 == k) = [] := by
  induction m with
  | nil => rfl
  | cons a t ih =>
      by_cases h : a.1 = k
      · simp [List.filter_cons, h, ih]
      · simp [List.filter_cons, h, ih]

/-! ## Claims -/

/-- C1: the claim states that for every u32 value `v`, `push_u32(v)`
followed immediately by `pop_u32()` returns exactly `v`, in particular for
`v ≥ 2^31`.  The code violates this at `v = 2^31`: `UInt32Value` encodes
such a value as a double-tagged jsval, and `pop_u32`'s `to_int32` requires
an int32-tagged value, so the pop aborts instead of returning `v` (at the
largest int32-representable value `2^31 - 1` the round trip still returns
the pushed value). -/
theorem claim_C1 :
    (MyCall.new.push_u32 2147483648).pop_u32 = none ∧
    (MyCall.new.push_u32 2147483647).pop_u32 = some (2147483647, MyCall.new) := by
  decide

/-- C2: a Call Context's stack is inserted into the GC Root Registry
exactly once at construction and removed exactly once at destruction, both
asserted to succeed: a balanced insert-then-remove of a fresh stack
restores the registry exactly (so its size after destruction equals its
size before construction), inserting an already-registered stack aborts,
and removing an unregistered stack (a missing registration, or a second
removal) aborts. -/
theorem claim_C2 :
    (∀ (r : StackRegistry) (id : Nat), id ∉ r →
      registry_insert r id = some (id :: r) ∧
      registry_remove (id :: r) id = some r ∧
      (id :: r).length = r.length + 1) ∧
    (∀ (r : StackRegistry) (id : Nat), id ∈ r → registry_insert r id = none) ∧
    (∀ (r : StackRegistry) (id : Nat), id ∉ r → registry_remove r id = none) := by
  refine ⟨fun r id h => ⟨?_, ?_, rfl⟩, fun r id h => ?_, fun r id h => ?_⟩
  · simp [registry_insert, h]
  · simp [registry_remove]
  · simp [registry_insert, h]
  · simp [registry_remove, h]

/-- Witness for C2 at the concrete registry `[]` and stack id `0`. -/
theorem claim_C2_witness :
    registry_insert [] 0 = some [0] ∧ registry_remove [0] 0 = some [] ∧
    ([0] : StackRegistry).length = ([] : StackRegistry).length + 1 :=
  claim_C2.1 [] 0 (by decide)

/-- C3: one invocation of the root tracer visits the global object plus
exactly the markable values of every registered Call Context stack — every
markable slot of every registered stack is visited, everything visited is
the global object or a markable slot of some registered stack, and (the
slots being distinct heap locations) nothing is visited twice. -/
theorem claim_C3 (g : Nat) (reg : List (List Slot))
    (hslots : ((reg.flatMap id).map Prod.fst).Nodup)
    (hg : g ∉ (reg.flatMap id).map Prod.fst) :
    (∀ stack ∈ reg, ∀ s ∈ stack, s.2.is_markable → s.1 ∈ trace_roots g reg) ∧
    (∀ a ∈ trace_roots g reg,
      a = g ∨ ∃ stack ∈ reg, ∃ s ∈ stack, s.1 = a ∧ s.2.is_markable) ∧
    (trace_roots g reg).Nodup := by
  refine ⟨?_, ?_, ?_⟩
  · intro stack hstack s hs hm
    simp only [trace_roots, List.mem_cons, List.mem_flatMap, List.mem_map,
      List.mem_filter]
    exact Or.inr ⟨stack, hstack, s, ⟨hs, hm⟩, rfl⟩
  · intro a ha
    simp only [trace_roots, List.mem_cons, List.mem_flatMap, List.mem_map,
      List.mem_filter] at ha
    rcases ha with h | ⟨stack, hstack, s, ⟨hs, hm⟩, rfl⟩
    · exact Or.inl h
    · exact Or.inr ⟨stack, hstack, s, hs, rfl, hm⟩
  · refine List.Nodup.cons ?_ (hslots.sublist (trace_filter_sublist reg))
    exact fun hmem => hg ((trace_filter_sublist reg).subset hmem)

/-- Witness for C3 at a concrete registry of two stacks holding an object,
an int32 and a string slot. -/
theorem claim_C3_witness :
    (trace_roots 0 [[(1, JSValue.object 1), (2, JSValue.int32 5)],
      [(3, JSValue.string 3)]]).Nodup :=
  (claim_C3 0 [[(1, JSValue.object 1), (2, JSValue.int32 5)],
    [(3, JSValue.string 3)]] (by decide) (by decide)).2.2

/-- C4: after the job queue is drained, `poll` with an empty pending-entry
map releases the Task State's waitable set (if any) and reports the exit
code; with a non-empty pending map it reports the wait code carrying the
waitable set — which, by the spec-modelled invariant that the (snapshot-
absent) set-maintenance code keeps the set joined over all pending subtask
handles, covers exactly the pending handles — with the Task State stashed
for resumption; and an async export that never awaits an async import
(i.e. whose Task State is still fresh at the first poll) reports exit on
the very first poll with no waitable set ever allocated. -/
theorem claim_C4 :
    (∀ st : TaskState, st.pending = [] →
      poll st = some (.exit (st.waitable_set.map WaitableSet.handle))) ∧
    (∀ (st : TaskState) (ws : WaitableSet), st.pending ≠ [] →
      st.waitable_set = some ws → ws.members = st.pending.map Prod.fst →
      poll st = some (.wait (CALLBACK_CODE_WAIT ||| (ws.handle <<< 4)) st)) ∧
    poll TaskState.new = some (.exit none) := by
  refine ⟨fun st hp => ?_, fun st ws hp hws _ => ?_, by decide⟩
  · simp [poll, hp]
  · simp [poll, hws, List.isEmpty_iff, hp]

/-- Witness for C4's wait case at a concrete suspended Task State whose
waitable set `3` covers its single pending subtask `5`. -/
theorem claim_C4_witness :
    poll ⟨some ⟨3, [5]⟩, [(5, ⟨0, MyCall.new, 7, 1, 2⟩)]⟩ =
      some (.wait (CALLBACK_CODE_WAIT ||| (3 <<< 4))
        ⟨some ⟨3, [5]⟩, [(5, ⟨0, MyCall.new, 7, 1, 2⟩)]⟩) :=
  claim_C4.2.1 ⟨some ⟨3, [5]⟩, [(5, ⟨0, MyCall.new, 7, 1, 2⟩)]⟩ ⟨3, [5]⟩
    (by decide) rfl rfl

/-- C5: for an async import dispatched through `call_import`, a
synchronously completed call (no pending subtask from the host) invokes
the resolve callback with the lifted result (the popped stack top when
the import has a result, `undefined` otherwise) before the entry point
returns, leaving the current Task State untouched (no pending entry); a
call that does not complete synchronously registers exactly one pending
entry, keyed by the host-assigned subtask handle, holding the captured
Call Context, result buffer and the supplied resolve/reject callbacks. -/
theorem claim_C5 :
    (∀ (index : Nat) (func : ImportFunc) (call : MyCall) (resolve reject : Nat)
        (cur : Option TaskState) (v : JSValue) (rest : List JSValue),
      func.has_result = true → call.stack = v :: rest →
      call_import_async_branch index func call none resolve reject cur =
        some ([.invoke_resolve resolve v], cur)) ∧
    (∀ (index : Nat) (func : ImportFunc) (call : MyCall) (resolve reject : Nat)
        (cur : Option TaskState),
      func.has_result = false →
      call_import_async_branch index func call none resolve reject cur =
        some ([.invoke_resolve resolve .undefined], cur)) ∧
    (∀ (index : Nat) (func : ImportFunc) (call : MyCall) (resolve reject : Nat)
        (st : TaskState) (p : PendingImport),
      call_import_async_branch index func call (some p) resolve reject (some st) =
        some ([], some { st with pending := (pendingInsert st.pending p.subtask
          ⟨index, call, p.buffer, resolve, reject⟩) }) ∧
      (pendingInsert st.pending p.subtask
        ⟨index, call, p.buffer, resolve, reject⟩).lookup p.subtask =
        some ⟨index, call, p.buffer, resolve, reject⟩ ∧
      ((pendingInsert st.pending p.subtask
        ⟨index, call, p.buffer, resolve, reject⟩).filter
          fun q => q.1 == p.subtask).length = 1) := by
  refine ⟨fun index func call resolve reject cur v rest hres hs => ?_,
    fun index func call resolve reject cur hres => ?_,
    fun index func call resolve reject st p => ⟨rfl, ?_, ?_⟩⟩
  · simp [call_import_async_branch, hres, hs]
  · simp [call_import_async_branch, hres]
  · simp [pendingInsert, List.lookup]
  · simp [pendingInsert, List.filter_cons, filter_ne_filter_eq_nil]

/-- Witness for C5's synchronous-completion case at a concrete import with
a result and a call stack holding the lifted value `int32 7`. -/
theorem claim_C5_witness :
    call_import_async_branch 0 ⟨none, "foo", 1, true, true⟩
      { MyCall.new with stack := [JSValue.int32 7] } none 1 2 none =
      some ([.invoke_resolve 1 (JSValue.int32 7)], none) :=
  claim_C5.1 0 ⟨none, "foo", 1, true, true⟩
    { MyCall.new with stack := [JSValue.int32 7] } 1 2 none (JSValue.int32 7) []
    rfl rfl

/-- C6 counterexample: the claim states that any event kind other than the
enumerated subtask phases aborts rather than being silently ignored, but
an `EVENT_NONE` (kind 0) event is accepted silently: the callback performs
no action and simply re-enters `poll`, reporting exit for a Task State
with nothing pending. -/
theorem claim_C6_counterexample :
    export_async_callback [] TaskState.new none EVENT_NONE 0 0 =
      some ([], .exit none) := by decide

/-- C6 (amended): a STARTED subtask phase is a no-op acknowledgment, and
so is an EVENT_NONE event; a STARTING phase aborts as unreachable; any
event kind other than NONE and SUBTASK, and any subtask phase other than
STARTING/STARTED/RETURNED, aborts; a RETURNED phase detaches the subtask's
waitable association, releases the subtask handle, lifts the import's
result into the captured Call Context, invokes the stored resolve callback
with the lifted value, removes the pending entry, and re-enters `poll`. -/
theorem claim_C6 :
    (∀ (wit : List ImportFunc) (st : TaskState) (lifted : Option JSValue) (e1 : Nat),
      export_async_callback_step wit st lifted EVENT_SUBTASK e1 STATUS_STARTED =
        some ([], st)) ∧
    (∀ (wit : List ImportFunc) (st : TaskState) (lifted : Option JSValue) (e1 e2 : Nat),
      export_async_callback_step wit st lifted EVENT_NONE e1 e2 = some ([], st)) ∧
    (∀ (wit : List ImportFunc) (st : TaskState) (lifted : Option JSValue) (e1 : Nat),
      export_async_callback_step wit st lifted EVENT_SUBTASK e1 STATUS_STARTING =
        none) ∧
    (∀ (wit : List ImportFunc) (st : TaskState) (lifted : Option JSValue) (e0 e1 e2 : Nat),
      e0 ≠ EVENT_NONE → e0 ≠ EVENT_SUBTASK →
      export_async_callback_step wit st lifted e0 e1 e2 = none) ∧
    (∀ (wit : List ImportFunc) (st : TaskState) (lifted : Option JSValue) (e1 e2 : Nat),
      e2 ≠ STATUS_STARTING → e2 ≠ STATUS_STARTED → e2 ≠ STATUS_RETURNED →
      export_async_callback_step wit st lifted EVENT_SUBTASK e1 e2 = none) ∧
    (∀ (wit : List ImportFunc) (st : TaskState) (entry : PendingEntry)
        (func : ImportFunc) (e1 : Nat) (v : JSValue),
      st.pending.lookup e1 = some entry →
      wit[entry.index]? = some func →
      func.has_result = true →
      entry.call.stack = [] →
      export_async_callback wit st (some v) EVENT_SUBTASK e1 STATUS_RETURNED =
        (poll { st with pending := pendingRemove st.pending e1 }).map fun pr =>
          ([.waitable_join_detach e1, .subtask_drop e1,
            .invoke_resolve entry.resolve v], pr)) := by
  refine ⟨fun wit st lifted e1 => by simp [export_async_callback_step,
      EVENT_NONE, EVENT_SUBTASK, STATUS_STARTING, STATUS_STARTED],
    fun wit st lifted e1 e2 => by simp [export_async_callback_step, EVENT_NONE],
    fun wit st lifted e1 => by simp [export_async_callback_step,
      EVENT_NONE, EVENT_SUBTASK, STATUS_STARTING],
    fun wit st lifted e0 e1 e2 h0 h1 => by
      simp [export_async_callback_step, h0, h1],
    fun wit st lifted e1 e2 h1 h2 h3 => by
      simp [export_async_callback_step, EVENT_NONE, EVENT_SUBTASK, h1, h2, h3],
    fun wit st entry func e1 v hlk hfn hres hstk => ?_⟩
  simp [export_async_callback, export_async_callback_step,
    EVENT_NONE, EVENT_SUBTASK, STATUS_STARTING, STATUS_STARTED, STATUS_RETURNED,
    hlk, hfn, hres, hstk]

/-- Witness for C6's RETURNED case at a concrete suspended Task State with
one pending subtask `5` whose import lifts the value `int32 44`. -/
theorem claim_C6_witness :
    export_async_callback [⟨none, "foo", 1, true, true⟩]
      ⟨some ⟨3, [5]⟩, [(5, ⟨0, MyCall.new, 7, 1, 2⟩)]⟩
      (some (JSValue.int32 44)) EVENT_SUBTASK 5 STATUS_RETURNED =
      (poll ⟨some ⟨3, [5]⟩,
        pendingRemove [(5, ⟨0, MyCall.new, 7, 1, 2⟩)] 5⟩).map fun pr =>
        ([.waitable_join_detach 5, .subtask_drop 5,
          .invoke_resolve 1 (JSValue.int32 44)], pr) :=
  claim_C6.2.2.2.2.2 [⟨none, "foo", 1, true, true⟩]
    ⟨some ⟨3, [5]⟩, [(5, ⟨0, MyCall.new, 7, 1, 2⟩)]⟩ ⟨0, MyCall.new, 7, 1, 2⟩
    ⟨none, "foo", 1, true, true⟩ 5 (JSValue.int32 44) (by decide) rfl rfl rfl

/-- C7: `pop_u32` on a Call Context whose top stack value is not
int32-tagged aborts instead of returning a converted value. -/
theorem claim_C7 (c : MyCall) (v : JSValue) (rest : List JSValue)
    (hs : c.stack = v :: rest) (hv : ∀ i : Int, v ≠ .int32 i) :
    c.pop_u32 = none := by
  have hti : v.to_int32 = none := by
    cases v
    case int32 i => exact absurd rfl (hv i)
    all_goals rfl
  simp [MyCall.pop_u32, hs, hti]

/-- Witness for C7 at a Call Context whose stack top is `undefined`. -/
theorem claim_C7_witness :
    ({ MyCall.new with stack := [JSValue.undefined] } : MyCall).pop_u32 = none :=
  claim_C7 _ JSValue.undefined [] rfl (fun _ h => JSValue.noConfusion h)

/-- C8: the claim states the async import wrapper body is the well-formed
expression `new Promise((resolve, reject) => dispatch(index, [params],
resolve, reject))`; the emitted text actually has an unclosed parenthesis
(balance +1), so it is not a well-formed expression, while the sync
wrapper body is the direct, balanced dispatch call and interface names are
`_`-rewritten as claimed. -/
theorem claim_C8 :
    gen_import_value 3 ⟨none, "foo-bar", 2, true, true⟩ =
      "new Promise((a,b)=>componentize_js_call_import(3,[p0,p1],a,b)" ∧
    parenBalance (gen_import_value 3 ⟨none, "foo-bar", 2, true, true⟩) = 1 ∧
    parenBalance (gen_import_value 3 ⟨none, "foo-bar", 2, false, true⟩) = 0 ∧
    gen_import_func 3 ⟨none, "foo-bar", 2, false, true⟩ =
      "foo_bar:function(p0,p1)\x7breturn componentize_js_call_import(3,[p0,p1])\x7d" ∧
    gen_import_group (some "componentize:js-tests/simple-import-and-export") "F" =
      "componentize_js_tests_simple_import_and_export:\x7bF\x7d" := by
  decide

/-- C9: the claim states every export gets a wrapper installed in the
`componentize_js_async_exports` object that calls the user's export and
notifies `componentize_js_resolve`; but the final script assembly
interpolates the imports text for that object and never uses the generated
export-wrapper text at all, so the assembled script is independent of the
export wrappers and its async-exports object is textually the imports
object. -/
theorem claim_C9 :
    (∀ script imports_js e₁ e₂ : String,
      assembled_script script imports_js e₁ = assembled_script script imports_js e₂) ∧
    assembled_script "s" "i" "e" =
      "s\nvar imports = \x7bi\x7d\nvar componentize_js_async_exports = \x7bi\x7d" :=
  ⟨fun _ _ _ _ => rfl, rfl⟩

/-- C10: popping from an empty value stack aborts via a failed unwrap
rather than returning any value — for `pop_u32` itself, for the
result-popping step after a synchronously completed import call, and for
the result-popping step after an asynchronously returned import call. -/
theorem claim_C10 :
    (∀ c : MyCall, c.stack = [] → c.pop_u32 = none) ∧
    (∀ (index : Nat) (func : ImportFunc) (call : MyCall) (resolve reject : Nat)
        (cur : Option TaskState),
      func.has_result = true → call.stack = [] →
      call_import_async_branch index func call none resolve reject cur = none) ∧
    (∀ (wit : List ImportFunc) (st : TaskState) (entry : PendingEntry)
        (func : ImportFunc) (e1 : Nat),
      st.pending.lookup e1 = some entry →
      wit[entry.index]? = some func →
      func.has_result = true →
      entry.call.stack = [] →
      export_async_callback_step wit st none EVENT_SUBTASK e1 STATUS_RETURNED =
        none) := by
  refine ⟨fun c hc => by simp [MyCall.pop_u32, hc],
    fun index func call resolve reject cur hres hs => by
      simp [call_import_async_branch, hres, hs],
    fun wit st entry func e1 hlk hfn hres hstk => by
      simp [export_async_callback_step, EVENT_NONE, EVENT_SUBTASK,
        STATUS_STARTING, STATUS_STARTED, STATUS_RETURNED, hlk, hfn, hres, hstk]⟩

/-- Witness for C10 at a fresh (empty-stacked) Call Context, a
synchronously completed import with a result, and a returned subtask whose
lift produced nothing. -/
theorem claim_C10_witness :
    MyCall.new.pop_u32 = none ∧
    call_import_async_branch 0 ⟨none, "foo", 1, true, true⟩ MyCall.new none 1 2
      none = none ∧
    export_async_callback_step [⟨none, "foo", 1, true, true⟩]
      ⟨none, [(5, ⟨0, MyCall.new, 7, 1, 2⟩)]⟩ none EVENT_SUBTASK 5
      STATUS_RETURNED = none :=
  ⟨claim_C10.1 MyCall.new rfl,
    claim_C10.2.1 0 ⟨none, "foo", 1, true, true⟩ MyCall.new 1 2 none rfl rfl,
    claim_C10.2.2 [⟨none, "foo", 1, true, true⟩]
      ⟨none, [(5, ⟨0, MyCall.new, 7, 1, 2⟩)]⟩ ⟨0, MyCall.new, 7, 1, 2⟩
      ⟨none, "foo", 1, true, true⟩ 5 (by decide) rfl rfl rfl⟩

end ComponentizeJs
